import Mathlib

set_option maxRecDepth 8000

/-!
Shallow embedding of the templateer code generator
(`src/templateer/{generator,core,cli,settings}.py`) and proofs about it.

The filesystem is modelled as an explicit state: a set of existing
directories plus a map from file paths to their textual contents.
Paths are plain strings joined with `/`.  All functions below are
translated directly from the Python source; a doc comment on each one
names the function it embeds.
-/

namespace Templateer

/-- Configuration values from `settings.py` (`TemplateerSettings`):
`model_dir` is where generated stubs are written, `template_output_dir`
is where rendered artifacts land. -/
structure Settings where
  model_dir : String
  template_output_dir : String
  deriving DecidableEq, Repr

/-- Filesystem state: the set of directories that exist, and the files
that exist with their contents (an association list keyed by path;
`lookup` finds the first, and `fsInsert` keeps keys unique). -/
structure FS where
  dirs : List String
  files : List (String × String)
  deriving DecidableEq, Repr

/-- Write (create or overwrite) the file at path `p` with content `v`. -/
def fsInsert (p v : String) (files : List (String × String)) :
    List (String × String) :=
  (p, v) :: files.filter (fun q => q.1 != p)

/-- Join a directory and a relative name with `/`.  Mirrors
`pathlib.Path.__truediv__`, which drops empty components, so joining
with the empty string returns the directory itself. -/
def pathJoin (a b : String) : String :=
  if b = "" then a else a ++ "/" ++ b

/-- Parent directory of a path, as `pathlib.Path.parent`: everything
before the last `/`, or `.` when the path has no `/`. -/
def parentDir (p : String) : String :=
  match p.data.reverse.dropWhile (fun c => c ≠ '/') with
  | [] => "."
  | _ :: t => String.mk t.reverse

/-- Effect of `Path.mkdir(parents=True, exist_ok=True)` on the directory
set, at the granularity of the target directory. -/
def mkdirP (d : String) (ds : List String) : List String :=
  if ds.contains d then ds else d :: ds

/-- Errors raised by the embedded Python code. -/
inductive PyErr where
  | parseError (msg : String)
  | fileNotFound
  | stopIteration
  deriving DecidableEq, Repr

/- ### camelify (`generator.py`, `ModelGenerator.camelify`; identical to
`main.py` `_camelify`) -/

/-- Separator characters of the regex `[_\-]([a-zA-Z])`. -/
def isSepChar (c : Char) : Bool := c = '_' || c = '-'

/-- ASCII letters, the character class `[a-zA-Z]` of the regex. -/
def isAsciiLetter (c : Char) : Bool :=
  ('a' ≤ c && c ≤ 'z') || ('A' ≤ c && c ≤ 'Z')

/-- Embedding of `re.sub(r"[_\-]([a-zA-Z])", lambda m: m.group(1).upper(), name)`:
scan left to right; at a separator followed by an ASCII letter, replace
the two characters by the uppercased letter and continue after the
match; otherwise keep the character and continue at the next position. -/
def camelSub : List Char → List Char
  | [] => []
  | [c] => [c]
  | c :: d :: rest =>
    if isSepChar c then
      if isAsciiLetter d then d.toUpper :: camelSub rest
      else c :: camelSub (d :: rest)
    else c :: camelSub (d :: rest)

/-- Embedding of `ModelGenerator.camelify`: apply the regex substitution,
then uppercase the first character (`name[:1].upper() + name[1:]`). -/
def camelify (name : String) : String :=
  match camelSub name.data with
  | [] => ""
  | c :: r => String.mk (c.toUpper :: r)

/-- Restatement of the claimed behaviour of the conversion, written from
the claim text: walking the name two characters at a time, a separator
immediately followed by an ASCII letter is removed and the letter
uppercased; any other separator (at the end, before a digit, before
another separator) is kept verbatim; finally the first character of the
result is uppercased. -/
def claimScan : List Char → List Char
  | [] => []
  | [c] => [c]
  | c :: d :: rest =>
    if isSepChar c && isAsciiLetter d then d.toUpper :: claimScan rest
    else c :: claimScan (d :: rest)

/-- Claim-side counterpart of `camelify`, built on `claimScan`. -/
def camelifyClaim (name : String) : String :=
  match claimScan name.data with
  | [] => ""
  | c :: r => String.mk (c.toUpper :: r)

/- ### Sorting and text helpers used by the stub writer -/

/-- Lexicographic comparison of character lists by code point, the
order Python uses to compare strings. -/
def charListLe : List Char → List Char → Bool
  | [], _ => true
  | _ :: _, [] => false
  | a :: as, b :: bs => if a = b then charListLe as bs else decide (a < b)

/-- Insert into a lexicographically sorted list (stable ascending). -/
def insertSorted (x : String) : List String → List String
  | [] => [x]
  | y :: ys => if charListLe x.data y.data then x :: y :: ys
               else y :: insertSorted x ys

/-- Embedding of Python `sorted` on strings: ascending lexicographic
order by code point. -/
def sortStrs (l : List String) : List String :=
  l.foldr insertSorted []

/-- Lowercase every character, as Python `str.lower` on ASCII text. -/
def strLower (s : String) : String :=
  String.mk (s.data.map Char.toLower)

/-- Drop the first `n` characters of a string. -/
def strDrop (s : String) (n : Nat) : String :=
  String.mk (s.data.drop n)

/-- Embedding of Python `str.removesuffix`: drop the suffix when
present, otherwise return the string unchanged. -/
def removesuffix (s suf : String) : String :=
  if s.data.reverse.take suf.data.length = suf.data.reverse then
    String.mk (s.data.take (s.data.length - suf.data.length))
  else s

/-- Split a character list at every `.`, as Python `str.split(".")`. -/
def splitOnDot : List Char → List (List Char)
  | [] => [[]]
  | c :: rest =>
    if c = '.' then [] :: splitOnDot rest
    else
      match splitOnDot rest with
      | [] => [[c]]
      | h :: t => (c :: h) :: t

/-- Last element of a list of character lists (`xs[-1]`; the split
above never yields an empty list). -/
def lastPart : List (List Char) → List Char
  | [] => []
  | [x] => x
  | _ :: xs => lastPart xs

/-- Embedding of `module.__name__.split(".")[-1]`. -/
def stemOf (moduleName : String) : String :=
  String.mk (lastPart (splitOnDot moduleName.data))

/- ### textwrap.dedent (stdlib semantics, over space-indented lines) -/

/-- Lines that consist solely of whitespace, as matched by
`textwrap._whitespace_only_re` (`^[ \t]+$`). -/
def lineIsWsOnly (s : String) : Bool :=
  s ≠ "" && s.data.all (fun c => c = ' ' || c = '\t')

/-- Number of leading space characters of a line. -/
def leadSpaces (s : String) : Nat :=
  (s.data.takeWhile (fun c => c = ' ')).length

/-- Embedding of `textwrap.dedent` on a text split into lines, for text
whose indentation is all spaces (as in the stub template):
whitespace-only lines are normalized to empty, the margin is the
longest common leading-space run of the remaining non-empty lines, and
that margin is stripped from every line that starts with it. -/
def dedentLines (lines : List String) : List String :=
  let norm := lines.map (fun l => if lineIsWsOnly l then "" else l)
  let margins := (norm.filter (fun l => l ≠ "")).map leadSpaces
  match margins with
  | [] => norm
  | m0 :: ms =>
    let m := ms.foldl min m0
    norm.map (fun l => if m ≤ leadSpaces l then strDrop l m else l)

/- ### Stub text (`generator.py`, `ModelGenerator.write_model_stub`) -/

/-- Embedding of the `field_lines` expression: one line
`"    {v}: Any | None = None"` per variable in sorted order, or the
single line `"    pass"` when there are no variables (the joined string
is empty, hence falsy, so `or` picks `"    pass"`). -/
def fieldLines (vars : List String) : List String :=
  match sortStrs vars with
  | [] => ["    pass"]
  | l => l.map (fun v => "    " ++ v ++ ": Any | None = None")

/-- Twelve spaces: the indentation of the body of the f-string literal
inside `write_model_stub`. -/
def ind12 : String := "            "

/-- Sixteen spaces: the indentation of the class-body lines of the
f-string literal. -/
def ind16 : String := "                "

/-- Lines of the formatted f-string of `write_model_stub`, before
`textwrap.dedent`, exactly as they appear in the source: the
interpolated `{field_lines}` contributes its first line appended to the
12-space indent of the template line and its remaining lines verbatim. -/
def stubLinesRaw (class_name stem moduleName attr : String)
    (fl : List String) : List String :=
  [ind12 ++ "from __future__ import annotations",
   "",
   ind12 ++ "from typing import Any",
   "",
   ind12 ++ "from templateer import TemplateModel",
   "",
   "",
   ind12 ++ "class " ++ class_name ++ "(TemplateModel):",
   ind16 ++ "\"\"\"Auto-generated from .templateer/" ++ stem ++ ".py\"\"\"",
   ind16 ++ "__template__ = \"" ++ moduleName ++ "." ++ attr ++ "\"",
   ""]
  ++ (match fl with
      | [] => [ind12]
      | h :: t => (ind12 ++ h) :: t)
  ++ [ind12]

/-- Lines of the stub text written by `write_model_stub`: the formatted
f-string passed through `textwrap.dedent`. -/
def stubLines (class_name stem moduleName attr : String)
    (vars : List String) : List String :=
  dedentLines (stubLinesRaw class_name stem moduleName attr (fieldLines vars))

/-- Stub text as a single string (lines joined by newlines). -/
def stubText (class_name stem moduleName attr : String)
    (vars : List String) : String :=
  String.intercalate "\n" (stubLines class_name stem moduleName attr vars)

/- ### Stub writer (`generator.py`, `ModelGenerator.write_model_stub`) -/

/-- Path of the stub for a template module:
`settings.model_dir / f"{stem}_model.py"`. -/
def stubPathOf (s : Settings) (moduleName : String) : String :=
  pathJoin s.model_dir (stemOf moduleName ++ "_model.py")

/-- Embedding of `ModelGenerator.write_model_stub`.  If the stub path
already exists the path is returned and the state untouched; otherwise
the stub text is synthesized and written with `Path.write_text`, which
requires the parent directory to exist (it creates no directories) and
raises `FileNotFoundError` when it does not. -/
def writeModelStub (s : Settings) (moduleName attr : String)
    (vars : List String) (fs : FS) : Except PyErr (String × FS) :=
  let stem := stemOf moduleName
  let class_name := camelify stem ++ "Template"
  let model_path := pathJoin s.model_dir (stem ++ "_model.py")
  if (fs.files.lookup model_path).isSome then
    .ok (model_path, fs)
  else
    let stub := stubText class_name stem moduleName attr vars
    if fs.dirs.contains (parentDir model_path) then
      .ok (model_path, { fs with files := fsInsert model_path stub fs.files })
    else
      .error .fileNotFound

/-- Filesystem effect of `settings.py` `get_settings` (run at import
time, before any stub writer call): create the model directory, touch
`model_dir/__init__.py` (creating it empty if absent, leaving existing
contents alone), and create the output directory. -/
def get_settings_effect (s : Settings) (fs : FS) : FS :=
  FS.mk
    (mkdirP s.template_output_dir (mkdirP s.model_dir fs.dirs))
    (if (fs.files.lookup (pathJoin s.model_dir "__init__.py")).isSome then
       fs.files
     else fsInsert (pathJoin s.model_dir "__init__.py") "" fs.files)

/- ### Templates and rendering (`core.py`) -/

/-- Jinja template text, shallowly embedded as a sequence of literal
chunks and variable references. -/
inductive Tok where
  | lit (s : String)
  | var (name : String)
  deriving DecidableEq, Repr

/-- Set of undeclared variables of a template, as
`jinja2.meta.find_undeclared_variables` over the parsed template
(`ModelGenerator.extract_template_vars`): the names of the variable
references, collected without duplicates. -/
def varsOf : List Tok → List String
  | [] => []
  | .lit _ :: t => varsOf t
  | .var n :: t =>
    let r := varsOf t
    if r.contains n then r else n :: r

/-- Rendering failures of the strict-undefined Jinja environment. -/
inductive RenderErr where
  | undefinedVar (name : String)
  deriving DecidableEq, Repr

/-- Render a template against named bindings under `StrictUndefined`
semantics: a variable with no binding raises an error, it is never
substituted by the empty string. -/
def renderTokens (flds : List (String × String)) :
    List Tok → Except RenderErr String
  | [] => .ok ""
  | .lit s :: t =>
    match renderTokens flds t with
    | .ok r => .ok (s ++ r)
    | .error e => .error e
  | .var n :: t =>
    match flds.lookup n with
    | none => .error (.undefinedVar n)
    | some v =>
      match renderTokens flds t with
      | .ok r => .ok (v ++ r)
      | .error e => .error e

/-- A `TemplateModel` instance (`core.py`): the class name, the resolved
template (the text the `__template__` dotted reference points at,
already parsed), the optional `__output__` override, and the declared
fields with their values as they are passed to `render` via
`model_dump()`. -/
structure TemplateModel where
  className : String
  template : List Tok
  output : Option String
  fields : List (String × String)
  deriving DecidableEq, Repr

/-- Embedding of `TemplateModel.render`:
`self._jinja_template.render(**self.model_dump())`. -/
def TemplateModel.render (m : TemplateModel) : Except RenderErr String :=
  renderTokens m.fields m.template

/-- Default output file name,
`f"{self.__class__.__name__.removesuffix('Template').lower()}.py"`. -/
def TemplateModel.defaultFileName (m : TemplateModel) : String :=
  strLower (removesuffix m.className "Template") ++ ".py"

/-- Embedding of `TemplateModel._output_path`: `if self.__output__:`
uses Python truthiness, so both `None` and the empty string fall back
to the derived file name. -/
def TemplateModel.outputPath (s : Settings) (m : TemplateModel) : String :=
  let filename :=
    match m.output with
    | some f => if f = "" then m.defaultFileName else f
    | none => m.defaultFileName
  pathJoin s.template_output_dir filename

/-- Embedding of `TemplateModel.generate`: render first; on success,
when `write` is true, make the parent directory of the output path and
write the rendered text there, overwriting any existing file; when
`write` is false, or when rendering raised, the filesystem state is
returned unchanged. -/
def TemplateModel.generate (st : Settings) (m : TemplateModel)
    (write : Bool) (fs : FS) : Except RenderErr String × FS :=
  match m.render with
  | .error e => (.error e, fs)
  | .ok code =>
    if write then
      let p := m.outputPath st
      (.ok code,
       { dirs := mkdirP (parentDir p) fs.dirs,
         files := fsInsert p code fs.files })
    else (.ok code, fs)

/- ### Discovery pass (`generator.py`, `ModelGenerator.autogen_models`) -/

/-- Decidable equality for `Except`, needed so that concrete runs of
the discovery pass can be checked by `decide`. -/
instance {ε : Type u} {α : Type v} [DecidableEq ε] [DecidableEq α] :
    DecidableEq (Except ε α)
  | .error x, .error y =>
    if h : x = y then isTrue (by rw [h])
    else isFalse (fun hh => by cases hh; exact h rfl)
  | .error _, .ok _ => isFalse (fun hh => by cases hh)
  | .ok _, .error _ => isFalse (fun hh => by cases hh)
  | .ok x, .ok y =>
    if h : x = y then isTrue (by rw [h])
    else isFalse (fun hh => by cases hh; exact h rfl)

/-- A template module file as seen by the discovery pass: its module
name (the file stem), whether it exposes a `TEMPLATE` constant, and the
outcome of parsing that constant and extracting its variables (a Jinja
`TemplateSyntaxError` is an exception, a success is the variable set). -/
structure TplFile where
  moduleName : String
  hasTemplate : Bool
  parseResult : Except PyErr (List String)
  deriving DecidableEq, Repr

/-- Whether extracting a template file's variables succeeds. -/
def tplOk (f : TplFile) : Bool :=
  match f.parseResult with
  | .ok _ => true
  | .error _ => false

/-- Embedding of `ModelGenerator.autogen_models`: for each discovered
module in order, skip it when it has no `TEMPLATE`; otherwise extract
the variables and write the stub, appending the returned path.  There
is no per-file exception handling: the first raised exception aborts
the loop, discarding the collected list, while the filesystem keeps the
stubs written before the failure. -/
def autogenModels (s : Settings) :
    List TplFile → FS → Except PyErr (List String) × FS
  | [], fs => (.ok [], fs)
  | f :: rest, fs =>
    if f.hasTemplate then
      match f.parseResult with
      | .error e => (.error e, fs)
      | .ok vars =>
        match writeModelStub s f.moduleName "TEMPLATE" vars fs with
        | .error e => (.error e, fs)
        | .ok (p, fs1) =>
          match autogenModels s rest fs1 with
          | (.ok ps, fs2) => (.ok (p :: ps), fs2)
          | (.error e, fs2) => (.error e, fs2)
    else autogenModels s rest fs

/- ### Generation pass binding-class lookup (`cli.py`, `generate`) -/

/-- A class bound in a loaded stub module's namespace, with the facts
the generation pass inspects: whether it is a subclass of
`TemplateModel` and whether it is the `TemplateModel` base itself. -/
structure PyClass where
  cname : String
  subclassOfTM : Bool
  isTMBase : Bool
  deriving DecidableEq, Repr

/-- Eligibility test of the generator expression in `cli.generate`:
`isinstance(c, type) and issubclass(c, TemplateModel) and c is not
TemplateModel`. -/
def eligibleBinding (c : PyClass) : Bool :=
  c.subclassOfTM && !c.isTMBase

/-- Embedding of `next(c for c in mod.__dict__.values() if ...)`: the
first eligible class in module order, or a `StopIteration` exception
when there is none. -/
def nextBindingClass : List PyClass → Except PyErr PyClass
  | [] => .error .stopIteration
  | c :: rest => if eligibleBinding c then .ok c else nextBindingClass rest

/-!
## Theorems

Helper lemmas first, then one theorem per claim (with a witness or a
counterexample where required).
-/

/-- Regex-substitution scan and the claim-side scan agree on every
input. -/
theorem camelSub_eq_claimScan : ∀ l : List Char, camelSub l = claimScan l
  | [] => rfl
  | [_] => rfl
  | c :: d :: rest => by
    have h1 := camelSub_eq_claimScan rest
    have h2 := camelSub_eq_claimScan (d :: rest)
    cases hs : isSepChar c <;> cases ha : isAsciiLetter d <;>
      simp [camelSub, claimScan, hs, ha, h1, h2]

/-- C9: the class-name conversion camelify removes an underscore or
hyphen and uppercases the following character only when that separator
is immediately followed by an ASCII letter; a separator at the end of
the name, or one followed by a digit or another separator, is kept
verbatim in the resulting class name (camelify "foo__bar" yields
"Foo_Bar"), and the first character of the result is always
uppercased. -/
theorem camelify_separator_behavior :
    (∀ name : String, camelify name = camelifyClaim name) ∧
    camelify "foo__bar" = "Foo_Bar" ∧
    camelify "foo_" = "Foo_" ∧
    camelify "a_1b" = "A_1b" ∧
    camelify "a-b" = "AB" ∧
    camelify "foo_bar_baz" = "FooBarBaz" := by
  refine ⟨?_, by decide, by decide, by decide, by decide, by decide⟩
  intro name
  unfold camelify camelifyClaim
  rw [camelSub_eq_claimScan]

/-- C1: when the stub path already exists, write_stub returns that path
and leaves the whole filesystem state — in particular the existing
file's contents — untouched; hence a user edit made between two calls
survives the second call unchanged. -/
theorem writeModelStub_existing_stub_unchanged
    (s : Settings) (moduleName attr : String) (vars : List String)
    (fs : FS) (content : String)
    (h : fs.files.lookup (stubPathOf s moduleName) = some content) :
    writeModelStub s moduleName attr vars fs =
      .ok (stubPathOf s moduleName, fs) := by
  simp only [stubPathOf] at h ⊢
  unfold writeModelStub
  simp [h]

/-- C1 witness: a stub edited by the user is returned unchanged by a
second call of the stub writer. -/
theorem writeModelStub_existing_stub_unchanged_witness :
    (FS.mk ["m"] [("m/foo_model.py", "edited by user")]).files.lookup
        (stubPathOf ⟨"m", "out"⟩ "foo") = some "edited by user" ∧
    writeModelStub ⟨"m", "out"⟩ "foo" "TEMPLATE" ["a"]
        ⟨["m"], [("m/foo_model.py", "edited by user")]⟩ =
      .ok (stubPathOf ⟨"m", "out"⟩ "foo",
           ⟨["m"], [("m/foo_model.py", "edited by user")]⟩) :=
  ⟨by decide,
   writeModelStub_existing_stub_unchanged ⟨"m", "out"⟩ "foo" "TEMPLATE"
     ["a"] ⟨["m"], [("m/foo_model.py", "edited by user")]⟩ "edited by user"
     (by decide)⟩

/-- C6 counterexample: a stub module declaring two eligible
Template-Binding subclasses does not make processing fail — the `next`
call silently returns the first candidate. -/
theorem nextBindingClass_two_eligible_picks_first :
    (([⟨"ATemplate", true, false⟩, ⟨"BTemplate", true, false⟩] :
        List PyClass).filter eligibleBinding).length = 2 ∧
    nextBindingClass [⟨"ATemplate", true, false⟩, ⟨"BTemplate", true, false⟩] =
      .ok ⟨"ATemplate", true, false⟩ := by decide

/-- C6 (amended): the generation pass locates the binding class with a
bare `next` over the module's namespace: with zero eligible classes it
fails with a StopIteration exception (caught by the per-stub handler,
with no dedicated "no unique binding class" message), and with more
than one eligible class it silently picks the first one in module
order. -/
theorem nextBindingClass_first_eligible (cs : List PyClass) :
    nextBindingClass cs =
      match cs.filter eligibleBinding with
      | [] => .error .stopIteration
      | c :: _ => .ok c := by
  induction cs with
  | nil => rfl
  | cons c rest ih =>
    cases h : eligibleBinding c <;>
      simp [nextBindingClass, List.filter_cons, h, ih]

/-- Templates with no undeclared variables render successfully against
any binding map. -/
theorem renderTokens_ok_of_no_vars (flds : List (String × String)) :
    ∀ ts : List Tok, varsOf ts = [] → ∃ out, renderTokens flds ts = .ok out
  | [], _ => ⟨"", rfl⟩
  | .lit s :: t, h => by
    have h2 : varsOf t = [] := by simpa [varsOf] using h
    obtain ⟨out, ho⟩ := renderTokens_ok_of_no_vars flds t h2
    exact ⟨s ++ out, by simp [renderTokens, ho]⟩
  | .var n :: t, h => by
    exfalso
    revert h
    simp only [varsOf]
    split
    · rename_i hc
      intro h
      rw [h] at hc
      simp at hc
    · simp

/-- C7: a template whose extracted variable set is empty renders
successfully on a binding instance that declares no required fields; in
particular a template consisting only of the literal text
"hello world" renders to that text unchanged. -/
theorem render_no_vars_succeeds :
    (∀ m : TemplateModel, varsOf m.template = [] →
        ∃ out, m.render = .ok out) ∧
    TemplateModel.render ⟨"HelloTemplate", [Tok.lit "hello world"], none, []⟩ =
      .ok "hello world" := by
  refine ⟨fun m h => ?_, rfl⟩
  exact renderTokens_ok_of_no_vars m.fields m.template h

/-- C7 witness: the literal template of the scenario has an empty
variable set and renders. -/
theorem render_no_vars_succeeds_witness :
    varsOf ([Tok.lit "hello world"] : List Tok) = [] ∧
    ∃ out, TemplateModel.render
        ⟨"HelloTemplate", [Tok.lit "hello world"], none, []⟩ = .ok out :=
  ⟨by decide,
   render_no_vars_succeeds.1 ⟨"HelloTemplate", [Tok.lit "hello world"], none, []⟩
     (by decide)⟩

/-- Rendering a template that references a variable with no binding
raises an error under strict-undefined semantics. -/
theorem renderTokens_error_of_missing (flds : List (String × String))
    (v : String) (hf : flds.lookup v = none) :
    ∀ ts : List Tok, v ∈ varsOf ts → ∃ e, renderTokens flds ts = .error e
  | [], hm => by simp [varsOf] at hm
  | .lit s :: t, hm => by
    have hvt : v ∈ varsOf t := by simpa [varsOf] using hm
    obtain ⟨e, he⟩ := renderTokens_error_of_missing flds v hf t hvt
    exact ⟨e, by simp [renderTokens, he]⟩
  | .var n :: t, hm => by
    by_cases hn : n = v
    · subst hn
      exact ⟨.undefinedVar n, by simp [renderTokens, hf]⟩
    · have hvt : v ∈ varsOf t := by
        revert hm
        simp only [varsOf]
        split
        · exact fun hm => hm
        · intro hm
          rcases List.mem_cons.mp hm with h | h
          · exact absurd h.symm hn
          · exact h
      obtain ⟨e, he⟩ := renderTokens_error_of_missing flds v hf t hvt
      cases hl : flds.lookup n with
      | none => exact ⟨.undefinedVar n, by simp [renderTokens, hl]⟩
      | some w => exact ⟨e, by simp [renderTokens, hl, he]⟩

/-- C4: a binding instance whose template references a variable that is
not among its fields fails to render with a RenderError (never a silent
empty substitution), and generate then writes nothing: the filesystem
is returned exactly as it was. -/
theorem render_missing_field_errors (m : TemplateModel) (v : String)
    (hv : v ∈ varsOf m.template) (hf : m.fields.lookup v = none) :
    ∃ e, m.render = .error e ∧
      ∀ (st : Settings) (w : Bool) (fs : FS),
        m.generate st w fs = (.error e, fs) := by
  obtain ⟨e, he⟩ :=
    renderTokens_error_of_missing m.fields v hf m.template hv
  have he2 : m.render = .error e := he
  exact ⟨e, he2, fun st w fs => by simp [TemplateModel.generate, he2]⟩

/-- C4 witness: the scenario template referencing `name` with no `name`
field fails to render and generate leaves the filesystem alone. -/
theorem render_missing_field_errors_witness :
    ("name" ∈ varsOf ([Tok.var "name"] : List Tok)) ∧
    (([] : List (String × String)).lookup "name" = none) ∧
    ∃ e, TemplateModel.render ⟨"FooTemplate", [Tok.var "name"], none, []⟩ =
          .error e ∧
      ∀ (st : Settings) (w : Bool) (fs : FS),
        TemplateModel.generate st ⟨"FooTemplate", [Tok.var "name"], none, []⟩
            w fs = (.error e, fs) :=
  ⟨by decide, by decide,
   render_missing_field_errors ⟨"FooTemplate", [Tok.var "name"], none, []⟩
     "name" (by decide) (by decide)⟩

/-- C3 counterexample: with the override field set to the empty string,
generate does not write at the path given by the override (joining with
the empty component yields the output directory itself); it writes at
the derived path `out/foo.py` instead. -/
theorem generate_empty_override_uses_derived_name :
    (TemplateModel.mk "FooTemplate" [Tok.lit "x"] (some "") []).output =
      some "" ∧
    TemplateModel.generate ⟨"models", "out"⟩
        (TemplateModel.mk "FooTemplate" [Tok.lit "x"] (some "") []) true
        ⟨[], []⟩ =
      (.ok "x", ⟨["out"], [("out/foo.py", "x")]⟩) ∧
    pathJoin "out" "" = "out" ∧
    (FS.mk ["out"] [("out/foo.py", "x")]).files.lookup (pathJoin "out" "") =
      none := by decide

/-- C3 (amended): generate returns exactly the string render produces;
with write true it writes that string — overwriting any existing file —
at the path given by the override field when that is set to a non-empty
string and otherwise at the output directory joined with the class name
with its "Template" suffix stripped and lowercased plus ".py" (an unset
or empty override falls back to the derived name); with write false the
filesystem is unchanged. -/
theorem generate_returns_render_and_writes (st : Settings)
    (m : TemplateModel) (w : Bool) (fs : FS) (code : String)
    (h : m.render = .ok code) :
    m.generate st w fs =
      (.ok code,
       if w then
         { dirs := mkdirP (parentDir (m.outputPath st)) fs.dirs,
           files := fsInsert (m.outputPath st) code fs.files }
       else fs) ∧
    m.outputPath st =
      pathJoin st.template_output_dir
        (match m.output with
         | some f =>
           if f = "" then strLower (removesuffix m.className "Template") ++ ".py"
           else f
         | none => strLower (removesuffix m.className "Template") ++ ".py") := by
  constructor
  · cases w <;> simp [TemplateModel.generate, h]
  · cases ho : m.output <;>
      simp [TemplateModel.outputPath, TemplateModel.defaultFileName, ho]

/-- C3 (amended) witness: a concrete binding with no override writes
its rendered text at the derived path. -/
theorem generate_returns_render_and_writes_witness :
    TemplateModel.render ⟨"BarTemplate", [Tok.lit "y"], none, []⟩ = .ok "y" ∧
    TemplateModel.generate ⟨"models", "out"⟩
          ⟨"BarTemplate", [Tok.lit "y"], none, []⟩ true ⟨[], []⟩ =
        (.ok "y",
         if true then
           { dirs := mkdirP
               (parentDir (TemplateModel.outputPath ⟨"models", "out"⟩
                 ⟨"BarTemplate", [Tok.lit "y"], none, []⟩)) ([] : List String),
             files := fsInsert (TemplateModel.outputPath ⟨"models", "out"⟩
                 ⟨"BarTemplate", [Tok.lit "y"], none, []⟩) "y" [] }
         else FS.mk [] []) ∧
      TemplateModel.outputPath ⟨"models", "out"⟩
          ⟨"BarTemplate", [Tok.lit "y"], none, []⟩ =
        pathJoin "out"
          (match (none : Option String) with
           | some f =>
             if f = "" then strLower (removesuffix "BarTemplate" "Template") ++ ".py"
             else f
           | none => strLower (removesuffix "BarTemplate" "Template") ++ ".py") :=
  ⟨by decide,
   generate_returns_render_and_writes ⟨"models", "out"⟩
     ⟨"BarTemplate", [Tok.lit "y"], none, []⟩ true ⟨[], []⟩ "y" (by decide)⟩

/-- C2 (evaluation at the failing input): for the module `foo` with
variables `a` and `b`, the stub written by write_stub is mangled by
`textwrap.dedent` — the spliced second field line carries only four
leading spaces, so the common margin shrinks to four and every
top-level line keeps eight spaces of indentation while the `b` field
line ends up at column zero, outside the class body.  Neither the class
declaration at column zero nor a properly indented field line for `b`
occurs in the output, so the stub does not declare a typed-record class
with one field per variable. -/
theorem writeModelStub_two_vars_mangled :
    writeModelStub ⟨"m", "out"⟩ "foo" "TEMPLATE" ["a", "b"] ⟨["m"], []⟩ =
      .ok ("m/foo_model.py",
        ⟨["m"],
         [("m/foo_model.py",
           String.intercalate "\n"
             ["        from __future__ import annotations", "",
              "        from typing import Any", "",
              "        from templateer import TemplateModel", "", "",
              "        class FooTemplate(TemplateModel):",
              "            \"\"\"Auto-generated from .templateer/foo.py\"\"\"",
              "            __template__ = \"foo.TEMPLATE\"", "",
              "            a: Any | None = None",
              "b: Any | None = None", ""])]⟩) ∧
    (stubLines "FooTemplate" "foo" "foo" "TEMPLATE" ["a", "b"]).contains
        "class FooTemplate(TemplateModel):" = false ∧
    (stubLines "FooTemplate" "foo" "foo" "TEMPLATE" ["a", "b"]).contains
        "    b: Any | None = None" = false := by decide

/-- Case analysis form of the stub writer. -/
theorem writeModelStub_eq (s : Settings) (mn attr : String)
    (vars : List String) (fs : FS) :
    writeModelStub s mn attr vars fs =
      if (fs.files.lookup (stubPathOf s mn)).isSome then
        .ok (stubPathOf s mn, fs)
      else if fs.dirs.contains (parentDir (stubPathOf s mn)) then
        .ok (stubPathOf s mn,
          FS.mk fs.dirs
            (fsInsert (stubPathOf s mn)
              (stubText (camelify (stemOf mn) ++ "Template") (stemOf mn) mn
                attr vars) fs.files))
      else .error .fileNotFound := rfl

/-- When the parent directory exists the stub writer succeeds, returns
the stub path, and never changes the directory set. -/
theorem writeModelStub_ok_of_dir (s : Settings) (mn attr : String)
    (vars : List String) (fs : FS)
    (hd : parentDir (stubPathOf s mn) ∈ fs.dirs) :
    ∃ fs1, writeModelStub s mn attr vars fs = .ok (stubPathOf s mn, fs1) ∧
      fs1.dirs = fs.dirs := by
  rw [writeModelStub_eq]
  by_cases h1 : (fs.files.lookup (stubPathOf s mn)).isSome
  · exact ⟨fs, by simp [h1], rfl⟩
  · refine ⟨FS.mk fs.dirs
      (fsInsert (stubPathOf s mn)
        (stubText (camelify (stemOf mn) ++ "Template") (stemOf mn) mn attr
          vars) fs.files), ?_, rfl⟩
    simp [h1, hd]

/-- Processing one successfully handled template module unfolds the
discovery pass by one step. -/
theorem autogen_cons_ok (s : Settings) (g : TplFile) (rest : List TplFile)
    (fs fs1 : FS) (vars : List String) (p : String)
    (hT : g.hasTemplate = true) (hp : g.parseResult = .ok vars)
    (hw : writeModelStub s g.moduleName "TEMPLATE" vars fs = .ok (p, fs1)) :
    autogenModels s (g :: rest) fs =
      match autogenModels s rest fs1 with
      | (.ok ps, fs2) => (.ok (p :: ps), fs2)
      | (.error e, fs2) => (.error e, fs2) := by
  cases hrec : autogenModels s rest fs1 with
  | mk r fs2 =>
    cases r with
    | ok ps => simp [autogenModels, hT, hp, hw, hrec]
    | error e => simp [autogenModels, hT, hp, hw, hrec]

/-- C10: a run of the discovery pass in which every template module
parses cleanly returns one stub path for every module exposing a
TEMPLATE constant — including modules whose stub already existed and
was therefore not rewritten — and no entry for modules without one, so
the reported count equals the number of template modules, not the
number of files newly written. -/
theorem autogen_lists_all_template_modules (s : Settings)
    (files : List TplFile) (fs : FS)
    (h : ∀ g ∈ files, g.hasTemplate = true →
        tplOk g = true ∧ parentDir (stubPathOf s g.moduleName) ∈ fs.dirs) :
    (autogenModels s files fs).1 =
      .ok ((files.filter (fun g => g.hasTemplate)).map
            (fun g => stubPathOf s g.moduleName)) ∧
    ((files.filter (fun g => g.hasTemplate)).map
        (fun g => stubPathOf s g.moduleName)).length =
      (files.filter (fun g => g.hasTemplate)).length := by
  refine ⟨?_, by simp⟩
  induction files generalizing fs with
  | nil => rfl
  | cons g rest ih =>
    cases hT : g.hasTemplate with
    | false =>
      have hrest := ih fs (fun x hx hxT => h x (List.mem_cons_of_mem g hx) hxT)
      simpa [autogenModels, hT, List.filter_cons] using hrest
    | true =>
      obtain ⟨hok, hd⟩ := h g (List.mem_cons_self g rest) hT
      cases hp : g.parseResult with
      | error e => rw [tplOk, hp] at hok; simp at hok
      | ok vs =>
        obtain ⟨fs1, hw, hdirs⟩ :=
          writeModelStub_ok_of_dir s g.moduleName "TEMPLATE" vs fs hd
        have hrest := ih fs1 (fun x hx hxT => by
          obtain ⟨hvs, hdx⟩ := h x (List.mem_cons_of_mem g hx) hxT
          exact ⟨hvs, by rw [hdirs]; exact hdx⟩)
        rw [autogen_cons_ok s g rest fs fs1 vs _ hT hp hw]
        cases hrec : autogenModels s rest fs1 with
        | mk r fs2 =>
          rw [hrec] at hrest
          simp at hrest
          rw [hrest]
          simp [List.filter_cons, hT]

/-- C10 witness: three modules — one with a pre-existing, user-edited
stub, one without a TEMPLATE constant, one fresh — produce exactly the
two stub paths of the template-bearing modules. -/
theorem autogen_lists_all_template_modules_witness :
    (∀ g ∈ ([⟨"alpha", true, .ok ["x"]⟩, ⟨"beta", false, .error .fileNotFound⟩,
             ⟨"gamma", true, .ok []⟩] : List TplFile),
        g.hasTemplate = true →
        tplOk g = true ∧
          parentDir (stubPathOf ⟨"m", "out"⟩ g.moduleName) ∈
            (FS.mk ["m"] [("m/alpha_model.py", "user edited")]).dirs) ∧
    (autogenModels ⟨"m", "out"⟩
        [⟨"alpha", true, .ok ["x"]⟩, ⟨"beta", false, .error .fileNotFound⟩,
         ⟨"gamma", true, .ok []⟩]
        ⟨["m"], [("m/alpha_model.py", "user edited")]⟩).1 =
      .ok ((([⟨"alpha", true, .ok ["x"]⟩, ⟨"beta", false, .error .fileNotFound⟩,
              ⟨"gamma", true, .ok []⟩] : List TplFile).filter
              (fun g => g.hasTemplate)).map
            (fun g => stubPathOf ⟨"m", "out"⟩ g.moduleName)) :=
  ⟨by decide,
   (autogen_lists_all_template_modules ⟨"m", "out"⟩
     [⟨"alpha", true, .ok ["x"]⟩, ⟨"beta", false, .error .fileNotFound⟩,
      ⟨"gamma", true, .ok []⟩]
     ⟨["m"], [("m/alpha_model.py", "user edited")]⟩
     (by decide)).1⟩

/-- C5 counterexample: with three template files of which the second
fails to parse, the discovery pass aborts with that error and produces
no stub for the third file (while the first file's stub was already
written), so failures are not isolated per file. -/
theorem autogen_middle_failure_skips_rest :
    (autogenModels ⟨"m", "out"⟩
        [⟨"alpha", true, .ok []⟩,
         ⟨"bad", true, .error (.parseError "bad template")⟩,
         ⟨"gamma", true, .ok []⟩] ⟨["m"], []⟩).1 =
      .error (.parseError "bad template") ∧
    ((autogenModels ⟨"m", "out"⟩
        [⟨"alpha", true, .ok []⟩,
         ⟨"bad", true, .error (.parseError "bad template")⟩,
         ⟨"gamma", true, .ok []⟩] ⟨["m"], []⟩).2.files.lookup
      "m/gamma_model.py") = none ∧
    ((autogenModels ⟨"m", "out"⟩
        [⟨"alpha", true, .ok []⟩,
         ⟨"bad", true, .error (.parseError "bad template")⟩,
         ⟨"gamma", true, .ok []⟩] ⟨["m"], []⟩).2.files.lookup
      "m/alpha_model.py") =
      some (stubText "AlphaTemplate" "alpha" "alpha" "TEMPLATE" []) := by
  decide

/-- C5 (amended): autogen_models has no per-file exception handling: the
first failing template file aborts the whole discovery pass with its
error.  Stubs for the files processed before the failure are already on
disk, but the failing file and every file after it produce nothing and
no list of paths is returned. -/
theorem autogen_failure_aborts_pass (s : Settings) (e : PyErr) (f : TplFile)
    (post : List TplFile) (hft : f.hasTemplate = true)
    (hfe : f.parseResult = .error e) :
    ∀ (pre : List TplFile) (fs : FS),
      (∀ g ∈ pre, g.hasTemplate = true →
          tplOk g = true ∧ parentDir (stubPathOf s g.moduleName) ∈ fs.dirs) →
      autogenModels s (pre ++ f :: post) fs =
        (.error e, (autogenModels s pre fs).2) := by
  intro pre
  induction pre with
  | nil =>
    intro fs _
    simp [autogenModels, hft, hfe]
  | cons g rest ih =>
    intro fs h
    cases hT : g.hasTemplate with
    | false =>
      have hrest := ih fs (fun x hx hxT => h x (List.mem_cons_of_mem g hx) hxT)
      simpa [autogenModels, hT] using hrest
    | true =>
      obtain ⟨hok, hd⟩ := h g (List.mem_cons_self g rest) hT
      cases hp : g.parseResult with
      | error e2 => rw [tplOk, hp] at hok; simp at hok
      | ok vs =>
        obtain ⟨fs1, hw, hdirs⟩ :=
          writeModelStub_ok_of_dir s g.moduleName "TEMPLATE" vs fs hd
        have hrest := ih fs1 (fun x hx hxT => by
          obtain ⟨hvs, hdx⟩ := h x (List.mem_cons_of_mem g hx) hxT
          exact ⟨hvs, by rw [hdirs]; exact hdx⟩)
        rw [List.cons_append,
          autogen_cons_ok s g (rest ++ f :: post) fs fs1 vs _ hT hp hw,
          hrest, autogen_cons_ok s g rest fs fs1 vs _ hT hp hw]
        cases hrec : autogenModels s rest fs1 with
        | mk r fs2 => cases r <;> simp

/-- C5 (amended) witness: a failing second file after one good file
aborts the pass with the parse error, leaving the state produced by the
good file alone. -/
theorem autogen_failure_aborts_pass_witness :
    (∀ g ∈ ([⟨"alpha", true, .ok []⟩] : List TplFile),
        g.hasTemplate = true →
        tplOk g = true ∧
          parentDir (stubPathOf ⟨"m", "out"⟩ g.moduleName) ∈
            (FS.mk ["m"] []).dirs) ∧
    autogenModels ⟨"m", "out"⟩
        ([⟨"alpha", true, .ok []⟩] ++
          ⟨"bad", true, .error (.parseError "boom")⟩ ::
            [⟨"gamma", true, .ok []⟩]) ⟨["m"], []⟩ =
      (.error (.parseError "boom"),
       (autogenModels ⟨"m", "out"⟩ [⟨"alpha", true, .ok []⟩]
          ⟨["m"], []⟩).2) :=
  ⟨by decide,
   autogen_failure_aborts_pass ⟨"m", "out"⟩ (.parseError "boom")
     ⟨"bad", true, .error (.parseError "boom")⟩ [⟨"gamma", true, .ok []⟩]
     (by decide) (by decide) [⟨"alpha", true, .ok []⟩] ⟨["m"], []⟩
     (by decide)⟩

/-- Making a directory makes it present. -/
theorem mkdirP_contains_self (d : String) (ds : List String) :
    (mkdirP d ds).contains d = true := by
  unfold mkdirP
  split
  · assumption
  · simp

/-- Making a directory keeps every present directory present. -/
theorem mkdirP_contains_mono (d x : String) (ds : List String)
    (h : ds.contains x = true) : (mkdirP d ds).contains x = true := by
  unfold mkdirP
  split
  · exact h
  · have h2 : x ∈ ds := by simpa using h
    simp [h2]

/-- Looking up a freshly written file finds its content. -/
theorem lookup_fsInsert_self (p v : String)
    (files : List (String × String)) :
    (fsInsert p v files).lookup p = some v := by
  simp [fsInsert, List.lookup]

/-- C8 counterexample: called with a stub path that does not exist and
whose parent directory is also missing, write_stub raises
FileNotFoundError instead of creating the parent directories and
writing the file — the operation itself never creates directories. -/
theorem writeModelStub_missing_dir_fails :
    (FS.mk [] []).files.lookup (stubPathOf ⟨"m", "out"⟩ "foo") = none ∧
    writeModelStub ⟨"m", "out"⟩ "foo" "TEMPLATE" ["a"] ⟨[], []⟩ =
      .error .fileNotFound := by decide

/-- C8 (amended): write_stub itself creates no directories; the model
directory (the stub path's parent) is created, together with its
`__init__.py` marker, by the settings initialization that runs when the
module is loaded, before any call.  Given that the parent directory
exists and the stub path does not, write_stub writes exactly one file —
the stub — and changes nothing else in the filesystem state. -/
theorem writeModelStub_writes_single_file (s : Settings) (mn attr : String)
    (vars : List String) (fs : FS)
    (h1 : fs.files.lookup (stubPathOf s mn) = none)
    (h2 : parentDir (stubPathOf s mn) ∈ fs.dirs) :
    writeModelStub s mn attr vars fs =
      .ok (stubPathOf s mn,
        FS.mk fs.dirs
          (fsInsert (stubPathOf s mn)
            (stubText (camelify (stemOf mn) ++ "Template") (stemOf mn) mn
              attr vars) fs.files)) ∧
    ∀ fs0 : FS,
      (get_settings_effect s fs0).dirs.contains s.model_dir = true ∧
      ((get_settings_effect s fs0).files.lookup
          (pathJoin s.model_dir "__init__.py")).isSome = true := by
  constructor
  · rw [writeModelStub_eq]
    simp [h1, h2]
  · intro fs0
    constructor
    · exact mkdirP_contains_mono _ _ _ (mkdirP_contains_self _ _)
    · simp only [get_settings_effect]
      split
      · rename_i hI
        simpa using hI
      · simp [lookup_fsInsert_self]

/-- C8 (amended) witness: after settings initialization created the
model directory, a call with a fresh stub path writes exactly the stub
file. -/
theorem writeModelStub_writes_single_file_witness :
    (FS.mk ["m"] []).files.lookup (stubPathOf ⟨"m", "out"⟩ "foo") = none ∧
    parentDir (stubPathOf ⟨"m", "out"⟩ "foo") ∈ (FS.mk ["m"] []).dirs ∧
    (writeModelStub ⟨"m", "out"⟩ "foo" "TEMPLATE" ["a"] ⟨["m"], []⟩ =
      .ok (stubPathOf ⟨"m", "out"⟩ "foo",
        FS.mk ["m"]
          (fsInsert (stubPathOf ⟨"m", "out"⟩ "foo")
            (stubText (camelify (stemOf "foo") ++ "Template") (stemOf "foo")
              "foo" "TEMPLATE" ["a"]) [])) ∧
     ∀ fs0 : FS,
       (get_settings_effect ⟨"m", "out"⟩ fs0).dirs.contains "m" = true ∧
       ((get_settings_effect ⟨"m", "out"⟩ fs0).files.lookup
           (pathJoin "m" "__init__.py")).isSome = true) :=
  ⟨by decide, by decide,
   writeModelStub_writes_single_file ⟨"m", "out"⟩ "foo" "TEMPLATE" ["a"]
     ⟨["m"], []⟩ (by decide) (by decide)⟩

end Templateer
